import Mathlib

/-!
Verification of the Ebook-Management-System backend (app.py and sync.py).

Relational state (PostgreSQL tables) is modelled as lists of rows; the
Flask request handlers of app.py become pure functions from a `DB` and a
request record to a result together with the updated `DB` and the list of
graph re-sync calls they trigger.  The Neo4j graph is modelled as lists of
nodes and edges, and each Cypher MERGE becomes an explicit
match-then-update-or-append operation.  The per-record write loops of
sync.py are modelled with an explicit failure oracle `bad` standing for the
Neo4j driver raising on a given record, which lets the try/except-per-record
loop of sync_borrowed_to_neo4j be distinguished from the bare loops of the
other sync functions.
-/

/-! ## Relational rows (PostgreSQL tables) -/

structure UserRow where
  id : Nat
  name : String
  email : String
  role : String
  password_hash : String
deriving DecidableEq, Repr

structure BookRow where
  id : Nat
  title : String
  author : String
  year_published : Nat
  genre : Option String
deriving DecidableEq, Repr

structure InvRow where
  id : Nat
  book_id : Nat
  quantity : Int
deriving DecidableEq, Repr

structure BorrowedRow where
  id : Nat
  user_id : Nat
  book_id : Nat
  borrowed_date : Nat
  due_date : Nat
  returned_date : Option Nat
deriving DecidableEq, Repr

structure ReviewRow where
  id : Nat
  book_id : Nat
  user_id : Nat
  rating : Nat
  review_text : String
deriving DecidableEq, Repr

/-- The relational store, plus the sequence values and clock the SQL layer
supplies (`RETURNING id` and `CURRENT_TIMESTAMP`). -/
structure DB where
  users : List UserRow
  books : List BookRow
  inventory : List InvRow
  borrowed : List BorrowedRow
  reviews : List ReviewRow
  nextBorrowId : Nat
  nextReviewId : Nat
  now : Nat
deriving DecidableEq, Repr

/-! ## Request bodies and Python truthiness

`data.get('field')` yields `None` when the key is absent; the handlers
reject with `if not field`, which also fires on the falsy values `0` and
`""`.  `truthyNat`/`truthyStr` model that check. -/

def truthyNat : Option Nat → Bool
  | none => false
  | some n => n != 0

def truthyStr : Option String → Bool
  | none => false
  | some s => s != ""

structure LoginRequest where
  email : Option String
  password : Option String
deriving DecidableEq, Repr

structure BorrowRequest where
  user_id : Option Nat
  book_id : Option Nat
  due_date : Option Nat
deriving DecidableEq, Repr

structure ReturnRequest where
  user_id : Option Nat
  book_id : Option Nat
deriving DecidableEq, Repr

structure ReviewRequest where
  book_id : Option Nat
  user_id : Option Nat
  rating : Option Nat
  review_text : Option String
deriving DecidableEq, Repr

/-! ## Handler results and HTTP status codes -/

inductive LoginResult where
  | validationError
  | notFound
  | unauthorized
  | success (user_id : Nat) (role : String)
deriving DecidableEq, Repr

def LoginResult.status : LoginResult → Nat
  | .validationError => 400
  | .notFound => 404
  | .unauthorized => 401
  | .success _ _ => 200

inductive BorrowResult where
  | validationError
  | alreadyBorrowed
  | limitExceeded
  | notAvailable
  | success (borrow_id : Nat)
deriving DecidableEq, Repr

def BorrowResult.status : BorrowResult → Nat
  | .validationError => 400
  | .alreadyBorrowed => 400
  | .limitExceeded => 400
  | .notAvailable => 400
  | .success _ => 201

inductive ReturnResult where
  | validationError
  | notFound
  | success
deriving DecidableEq, Repr

def ReturnResult.status : ReturnResult → Nat
  | .validationError => 400
  | .notFound => 404
  | .success => 200

inductive ReviewResult where
  | validationError
  | success
deriving DecidableEq, Repr

def ReviewResult.status : ReviewResult → Nat
  | .validationError => 400
  | .success => 201

/-- Which sync functions a handler invokes after committing. -/
inductive SyncAction where
  | borrowed
  | inventory
deriving DecidableEq, Repr

/-! ## SQL helper queries used by the handlers -/

/-- `SELECT id FROM borrowed WHERE user_id = %s AND book_id = %s AND returned_date IS NULL`. -/
def isOutstandingFor (uid bid : Nat) (r : BorrowedRow) : Bool :=
  r.user_id == uid && r.book_id == bid && r.returned_date == none

def outstandingPair (db : DB) (uid bid : Nat) : List BorrowedRow :=
  db.borrowed.filter (isOutstandingFor uid bid)

/-- `SELECT COUNT(*) FROM borrowed WHERE user_id = %s AND returned_date IS NULL`. -/
def outstandingCount (db : DB) (uid : Nat) : Nat :=
  (db.borrowed.filter (fun r => r.user_id == uid && r.returned_date == none)).length

/-- `SELECT quantity FROM inventory WHERE book_id = %s` with `fetchone`. -/
def inventoryQty (db : DB) (bid : Nat) : Option Int :=
  (db.inventory.find? (fun i => i.book_id == bid)).map (·.quantity)

/-! ## app.py handlers -/

/-- `POST /login`.  `checkHash` stands for `bcrypt.check_password_hash`. -/
def login (checkHash : String → String → Bool) (db : DB) (r : LoginRequest) : LoginResult :=
  if !truthyStr r.email || !truthyStr r.password then
    .validationError
  else
    match db.users.find? (fun u => u.email == r.email.getD "") with
    | none => .notFound
    | some u =>
      if checkHash u.password_hash (r.password.getD "") then .success u.id u.role
      else .unauthorized

structure BorrowOutcome where
  result : BorrowResult
  db : DB
  syncs : List SyncAction
deriving DecidableEq, Repr

/-- `POST /borrow`. -/
def borrow_book (db : DB) (r : BorrowRequest) : BorrowOutcome :=
  if !truthyNat r.user_id || !truthyNat r.book_id || !truthyNat r.due_date then
    ⟨.validationError, db, []⟩
  else
    let uid := r.user_id.getD 0
    let bid := r.book_id.getD 0
    let dd := r.due_date.getD 0
    if !(outstandingPair db uid bid).isEmpty then
      ⟨.alreadyBorrowed, db, []⟩
    else if 4 ≤ outstandingCount db uid then
      ⟨.limitExceeded, db, []⟩
    else
      match inventoryQty db bid with
      | none => ⟨.notAvailable, db, []⟩
      | some q =>
        if q ≤ 0 then
          ⟨.notAvailable, db, []⟩
        else
          ⟨.success db.nextBorrowId,
           { db with
              borrowed := db.borrowed ++ [⟨db.nextBorrowId, uid, bid, db.now, dd, none⟩],
              inventory := db.inventory.map fun i =>
                if i.book_id == bid then { i with quantity := i.quantity - 1 } else i,
              nextBorrowId := db.nextBorrowId + 1 },
           [.borrowed, .inventory]⟩

structure ReturnOutcome where
  result : ReturnResult
  db : DB
  syncs : List SyncAction
deriving DecidableEq, Repr

/-- `POST /return`. -/
def return_book (db : DB) (r : ReturnRequest) : ReturnOutcome :=
  if !truthyNat r.user_id || !truthyNat r.book_id then
    ⟨.validationError, db, []⟩
  else
    let uid := r.user_id.getD 0
    let bid := r.book_id.getD 0
    match db.borrowed.find? (isOutstandingFor uid bid) with
    | none => ⟨.notFound, db, []⟩
    | some row =>
      ⟨.success,
       { db with
          borrowed := db.borrowed.map fun b =>
            if b.id == row.id then { b with returned_date := some db.now } else b,
          inventory := db.inventory.map fun i =>
            if i.book_id == bid then { i with quantity := i.quantity + 1 } else i },
       [.borrowed, .inventory]⟩

structure ReviewOutcome where
  result : ReviewResult
  db : DB
deriving DecidableEq, Repr

/-- `POST /reviews`. -/
def add_review (db : DB) (r : ReviewRequest) : ReviewOutcome :=
  if !truthyNat r.book_id || !truthyNat r.user_id || !truthyNat r.rating then
    ⟨.validationError, db⟩
  else
    ⟨.success,
     { db with
        reviews := db.reviews ++
          [⟨db.nextReviewId, r.book_id.getD 0, r.user_id.getD 0, r.rating.getD 0,
            r.review_text.getD ""⟩],
        nextReviewId := db.nextReviewId + 1 }⟩

/-! ## GET /books/{book_id}/rating -/

/-- The ratings of the rows `SELECT rating FROM review WHERE book_id = %s` returns. -/
def bookRatings (db : DB) (bid : Nat) : List Nat :=
  (db.reviews.filter (fun rv => rv.book_id == bid)).map (·.rating)

/-- SQL `AVG(rating)`: `NULL` on an empty set, the exact mean otherwise. -/
def sqlAvg (l : List Nat) : Option Rat :=
  if l.isEmpty then none else some ((l.map (fun n => (n : Rat))).sum / (l.length : Rat))

/-- Python `avg_rating or 0`: `0` replaces a falsy value (`None` or `0`). -/
def pyOrZero : Option Rat → Rat
  | none => 0
  | some v => if v == 0 then 0 else v

def get_average_rating (db : DB) (bid : Nat) : Rat :=
  pyOrZero (sqlAvg (bookRatings db bid))

/-! ## The Neo4j graph

Nodes and relationships are plain lists; each Cypher `MERGE` keyed by some
pattern becomes: if a matching element exists, overwrite its tracked
properties on every match, otherwise append a fresh element. -/

structure UserNode where
  id : Nat
  name : String
  email : String
  role : String
deriving DecidableEq, Repr

structure BookNode where
  id : Nat
  title : String
  author : String
  year_published : Nat
  genre : Option String
deriving DecidableEq, Repr

structure InvNode where
  id : Nat
  quantity : Int
deriving DecidableEq, Repr

/-- A `BORROWED` relationship `(u:User)-[r:BORROWED {id}]->(b:Book)` with its
date properties. -/
structure BorrowEdge where
  id : Nat
  from_user : Nat
  to_book : Nat
  borrowed_date : Nat
  due_date : Nat
  returned_date : Option Nat
deriving DecidableEq, Repr

structure Graph where
  users : List UserNode
  books : List BookNode
  genres : List String
  inventories : List InvNode
  borrowedEdges : List BorrowEdge
  belongsTo : List (Nat × String)
  hasInventory : List (Nat × Nat)
  similarTo : List (Nat × Nat)
deriving DecidableEq, Repr

def Graph.empty : Graph := ⟨[], [], [], [], [], [], [], []⟩

/-! ## Per-record graph writes (one Cypher statement each) -/

/-- `MERGE (u:User {id}) ON CREATE SET ... ON MATCH SET ...` from sync_users_to_neo4j. -/
def mergeUserNode (u : UserRow) (g : Graph) : Graph :=
  if g.users.any (fun n => n.id == u.id) then
    { g with users := g.users.map fun n =>
        if n.id == u.id then { n with name := u.name, email := u.email, role := u.role } else n }
  else
    { g with users := g.users ++ [⟨u.id, u.name, u.email, u.role⟩] }

/-- `MERGE (b:Book {id}) ON CREATE SET ... ON MATCH SET ...` from sync_books_to_neo4j. -/
def mergeBookNode (b : BookRow) (g : Graph) : Graph :=
  if g.books.any (fun n => n.id == b.id) then
    { g with books := g.books.map fun n =>
        if n.id == b.id then
          { n with title := b.title, author := b.author,
                   year_published := b.year_published, genre := b.genre }
        else n }
  else
    { g with books := g.books ++ [⟨b.id, b.title, b.author, b.year_published, b.genre⟩] }

def edgeOfRow (r : BorrowedRow) : BorrowEdge :=
  ⟨r.id, r.user_id, r.book_id, r.borrowed_date, r.due_date, r.returned_date⟩

/-- `MATCH (u:User {id: $user_id}), (b:Book {id: $book_id})
MERGE (u)-[r:BORROWED {id: $id}]->(b) ON CREATE SET ... ON MATCH SET ...`
from sync_borrowed_to_neo4j; when either endpoint node is missing the MATCH
produces no row and nothing is written. -/
def mergeBorrowEdge (r : BorrowedRow) (g : Graph) : Graph :=
  if g.users.any (fun n => n.id == r.user_id) && g.books.any (fun b => b.id == r.book_id) then
    if g.borrowedEdges.any
        (fun e => e.id == r.id && e.from_user == r.user_id && e.to_book == r.book_id) then
      { g with borrowedEdges := g.borrowedEdges.map fun e =>
          if e.id == r.id && e.from_user == r.user_id && e.to_book == r.book_id then
            { e with borrowed_date := r.borrowed_date, due_date := r.due_date,
                     returned_date := r.returned_date }
          else e }
    else
      { g with borrowedEdges := g.borrowedEdges ++ [edgeOfRow r] }
  else g

/-- `MATCH (b:Book {id: $book_id}) MERGE (inv:Inventory {id: $id}) ON CREATE
SET ... ON MATCH SET ... MERGE (b)-[:HAS_INVENTORY]->(inv)` from
sync_inventory_to_neo4j. -/
def writeInventory (r : InvRow) (g : Graph) : Graph :=
  if g.books.any (fun b => b.id == r.book_id) then
    let g1 :=
      if g.inventories.any (fun n => n.id == r.id) then
        { g with inventories := g.inventories.map fun n =>
            if n.id == r.id then { n with quantity := r.quantity } else n }
      else
        { g with inventories := g.inventories ++ [⟨r.id, r.quantity⟩] }
    if (r.book_id, r.id) ∈ g1.hasInventory then g1
    else { g1 with hasInventory := g1.hasInventory ++ [(r.book_id, r.id)] }
  else g

/-- `MERGE (g:Genre {name: $genre}) WITH g MATCH (b:Book {id: $book_id})
MERGE (b)-[:BELONGS_TO]->(g)` from sync_genres_and_relationships: the Genre
node is merged even when the Book node is absent. -/
def writeGenre (b : BookRow) (g : Graph) : Graph :=
  let gname := b.genre.getD ""
  let g1 := if gname ∈ g.genres then g else { g with genres := g.genres ++ [gname] }
  if g1.books.any (fun n => n.id == b.id) then
    if (b.id, gname) ∈ g1.belongsTo then g1
    else { g1 with belongsTo := g1.belongsTo ++ [(b.id, gname)] }
  else g1

/-! ## The sync loops

`bad r = true` means the Neo4j driver raises while writing record `r`.
sync_borrowed_to_neo4j wraps each write in try/except, so a failure is
logged and the loop continues; the other sync functions have no handler, so
the first failure propagates and the remaining records are never attempted.
`attempted` records which rows the loop reached; `completed` is false when
an exception escaped the function. -/

structure SyncOutcome (α : Type) where
  graph : Graph
  attempted : List α
  completed : Bool

/-- The try/except-per-record loop of sync_borrowed_to_neo4j. -/
def syncLoopSkip (bad : α → Bool) (write : α → Graph → Graph) :
    List α → Graph → SyncOutcome α
  | [], g => ⟨g, [], true⟩
  | r :: rs, g =>
    let g1 := if bad r then g else write r g
    let o := syncLoopSkip bad write rs g1
    ⟨o.graph, r :: o.attempted, o.completed⟩

/-- A bare per-record loop: the first raising write aborts the rest. -/
def syncLoopAbort (bad : α → Bool) (write : α → Graph → Graph) :
    List α → Graph → SyncOutcome α
  | [], g => ⟨g, [], true⟩
  | r :: rs, g =>
    if bad r then ⟨g, [r], false⟩
    else
      let o := syncLoopAbort bad write rs (write r g)
      ⟨o.graph, r :: o.attempted, o.completed⟩

/-! ## The DISTINCT ON selection of sync_borrowed_to_neo4j

`SELECT DISTINCT ON (user_id, book_id) ... ORDER BY user_id, book_id,
borrowed_date DESC` keeps, for each (user_id, book_id) pair, the row with
the greatest borrowed_date. -/

def pairOf (r : BorrowedRow) : Nat × Nat := (r.user_id, r.book_id)

def rowsForPair (rows : List BorrowedRow) (p : Nat × Nat) : List BorrowedRow :=
  rows.filter (fun r => pairOf r == p)

def pickLater (a : Option BorrowedRow) (r : BorrowedRow) : Option BorrowedRow :=
  match a with
  | none => some r
  | some b => if b.borrowed_date < r.borrowed_date then some r else some b

def latestForPair (rows : List BorrowedRow) (p : Nat × Nat) : Option BorrowedRow :=
  (rowsForPair rows p).foldl pickLater none

def distinctOnBorrowed (rows : List BorrowedRow) : List BorrowedRow :=
  ((rows.map pairOf).dedup).filterMap (latestForPair rows)

/-! ## sync.py functions

Each takes the rows its opening SELECT would return, the failure oracle for
the graph driver, and the current graph. -/

def sync_users_to_neo4j (bad : UserRow → Bool) (users : List UserRow) (g : Graph) :
    SyncOutcome UserRow :=
  syncLoopAbort bad mergeUserNode users g

def sync_books_to_neo4j (bad : BookRow → Bool) (books : List BookRow) (g : Graph) :
    SyncOutcome BookRow :=
  syncLoopAbort bad mergeBookNode books g

def sync_borrowed_to_neo4j (bad : BorrowedRow → Bool) (rows : List BorrowedRow) (g : Graph) :
    SyncOutcome BorrowedRow :=
  syncLoopSkip bad mergeBorrowEdge (distinctOnBorrowed rows) g

def sync_inventory_to_neo4j (bad : InvRow → Bool) (rows : List InvRow) (g : Graph) :
    SyncOutcome InvRow :=
  syncLoopAbort bad writeInventory rows g

/-- The loop runs over `SELECT id, genre FROM book WHERE genre IS NOT NULL`. -/
def sync_genres_and_relationships (bad : BookRow → Bool) (books : List BookRow) (g : Graph) :
    SyncOutcome BookRow :=
  syncLoopAbort bad writeGenre (books.filter (fun b => b.genre.isSome)) g

/-- `MATCH (b1:Book), (b2:Book) WHERE b1.genre = b2.genre AND b1.id <> b2.id
MERGE (b1)-[:SIMILAR_TO]->(b2)`.  Cypher three-valued logic: `b1.genre =
b2.genre` is not satisfied when either genre is null. -/
def genreMatch (b1 b2 : BookNode) : Bool :=
  match b1.genre, b2.genre with
  | some s, some t => s == t
  | _, _ => false

/-- The row set of the self-join `MATCH (b1:Book), (b2:Book) WHERE b1.genre
= b2.genre AND b1.id <> b2.id`, projected to the id pair. -/
def similarPairs (g : Graph) : List (Nat × Nat) :=
  g.books.flatMap fun b1 =>
    (g.books.filter (fun b2 => genreMatch b1 b2 && b1.id != b2.id)).map fun b2 =>
      (b1.id, b2.id)

def create_similar_relationships (g : Graph) : Graph :=
  { g with similarTo :=
      (similarPairs g).foldl (fun es p => if p ∈ es then es else es ++ [p]) g.similarTo }

/-! ## GET /recommendations/{user_id} -/

def hasBorrowedEdge (g : Graph) (uid bid : Nat) : Bool :=
  g.borrowedEdges.any (fun e => e.from_user == uid && e.to_book == bid)

/-- All rows of the match
`(u:User {id})-[:BORROWED]->(b:Book)-[:BELONGS_TO]->(g:Genre)<-[:BELONGS_TO]-(rec:Book)
WHERE NOT (u)-[:BORROWED]->(rec)`, projected to the `rec` node. -/
def recommendMatches (g : Graph) (uid : Nat) : List BookNode :=
  if g.users.any (fun n => n.id == uid) then
    (g.borrowedEdges.filter (fun e => e.from_user == uid)).flatMap fun e =>
      (g.books.filter (fun b => b.id == e.to_book)).flatMap fun _b =>
        (g.belongsTo.filter (fun pr => pr.1 == e.to_book && g.genres.contains pr.2)).flatMap
          fun pr =>
            ((g.belongsTo.filter (fun qr => qr.2 == pr.2)).flatMap fun qr =>
                g.books.filter (fun rb => rb.id == qr.1)).filter
              fun rb => !hasBorrowedEdge g uid rb.id
  else []

/-- `RETURN DISTINCT rec.title, rec.author, rec.year_published LIMIT 5`. -/
def get_recommendations_endpoint (g : Graph) (uid : Nat) : List (String × String × Nat) :=
  (((recommendMatches g uid).map fun b => (b.title, b.author, b.year_published)).dedup).take 5

/-! # Theorems -/

/-- Claim C10: in every POST handler, a required field that is present but
falsy — `user_id` 0, `book_id` 0, `rating` 0, or an empty-string password —
is treated exactly like a missing field: the handler answers with the 400
validation error, leaves the relational state untouched, and its answer does
not depend on the database at all (no database access). -/
theorem falsy_fields_rejected_like_missing :
    (∀ (checkHash : String → String → Bool) (db : DB) (e : Option String),
      login checkHash db ⟨e, some ""⟩ = .validationError ∧
      login checkHash db ⟨e, some ""⟩ = login checkHash db ⟨e, none⟩ ∧
      LoginResult.status (login checkHash db ⟨e, some ""⟩) = 400) ∧
    (∀ (db : DB) (b d : Option Nat),
      borrow_book db ⟨some 0, b, d⟩ = ⟨.validationError, db, []⟩ ∧
      borrow_book db ⟨some 0, b, d⟩ = borrow_book db ⟨none, b, d⟩ ∧
      BorrowResult.status (borrow_book db ⟨some 0, b, d⟩).result = 400) ∧
    (∀ (db : DB) (u d : Option Nat),
      borrow_book db ⟨u, some 0, d⟩ = ⟨.validationError, db, []⟩ ∧
      borrow_book db ⟨u, some 0, d⟩ = borrow_book db ⟨u, none, d⟩) ∧
    (∀ (db : DB) (b : Option Nat),
      return_book db ⟨some 0, b⟩ = ⟨.validationError, db, []⟩ ∧
      return_book db ⟨some 0, b⟩ = return_book db ⟨none, b⟩ ∧
      ReturnResult.status (return_book db ⟨some 0, b⟩).result = 400) ∧
    (∀ (db : DB) (u : Option Nat),
      return_book db ⟨u, some 0⟩ = ⟨.validationError, db, []⟩ ∧
      return_book db ⟨u, some 0⟩ = return_book db ⟨u, none⟩) ∧
    (∀ (db : DB) (b u : Option Nat) (t : Option String),
      add_review db ⟨b, u, some 0, t⟩ = ⟨.validationError, db⟩ ∧
      add_review db ⟨b, u, some 0, t⟩ = add_review db ⟨b, u, none, t⟩ ∧
      ReviewResult.status (add_review db ⟨b, u, some 0, t⟩).result = 400) ∧
    (∀ (db : DB) (u r : Option Nat) (t : Option String),
      add_review db ⟨some 0, u, r, t⟩ = ⟨.validationError, db⟩ ∧
      add_review db ⟨some 0, u, r, t⟩ = add_review db ⟨none, u, r, t⟩) := by
  refine ⟨?_, ?_, ?_, ?_, ?_, ?_, ?_⟩
  · intro checkHash db e
    refine ⟨?_, ?_, ?_⟩ <;> simp [login, truthyStr, LoginResult.status]
  · intro db b d
    refine ⟨?_, ?_, ?_⟩ <;> simp [borrow_book, truthyNat, BorrowResult.status]
  · intro db u d
    constructor <;> simp [borrow_book, truthyNat]
  · intro db b
    refine ⟨?_, ?_, ?_⟩ <;> simp [return_book, truthyNat, ReturnResult.status]
  · intro db u
    constructor <;> simp [return_book, truthyNat]
  · intro db b u t
    refine ⟨?_, ?_, ?_⟩ <;> simp [add_review, truthyNat, ReviewResult.status]
  · intro db u r t
    constructor <;> simp [add_review, truthyNat]

/-- Claim C6: AverageRating returns 0 (a value, not null and not an error)
for a book with zero review rows, and the exact mean of the book's ratings
when at least one review exists. -/
theorem average_rating_spec (db : DB) (bid : Nat) :
    (db.reviews.filter (fun rv => rv.book_id == bid) = [] →
      get_average_rating db bid = 0) ∧
    (db.reviews.filter (fun rv => rv.book_id == bid) ≠ [] →
      get_average_rating db bid =
        ((bookRatings db bid).map (fun n => (n : Rat))).sum / ((bookRatings db bid).length : Rat)) := by
  constructor
  · intro h
    simp [get_average_rating, sqlAvg, bookRatings, pyOrZero, h]
  · intro h
    have hne : bookRatings db bid ≠ [] := by
      simp [bookRatings, h]
    simp only [get_average_rating, sqlAvg, List.isEmpty_iff, if_neg hne]
    simp only [pyOrZero]
    split <;> simp_all

/-- Witness for C6 at concrete inputs: book 7 has two reviews with ratings 4
and 5 and mean 9/2; book 9 has none and gets 0. -/
theorem average_rating_spec_witness :
    get_average_rating ⟨[], [], [], [], [⟨1, 7, 2, 4, ""⟩, ⟨2, 7, 3, 5, ""⟩], 0, 3, 0⟩ 7 =
      ((bookRatings ⟨[], [], [], [], [⟨1, 7, 2, 4, ""⟩, ⟨2, 7, 3, 5, ""⟩], 0, 3, 0⟩ 7).map
        (fun n => (n : Rat))).sum /
        ((bookRatings ⟨[], [], [], [], [⟨1, 7, 2, 4, ""⟩, ⟨2, 7, 3, 5, ""⟩], 0, 3, 0⟩ 7).length : Rat) ∧
    get_average_rating ⟨[], [], [], [], [⟨1, 7, 2, 4, ""⟩], 0, 3, 0⟩ 9 = 0 :=
  ⟨(average_rating_spec ⟨[], [], [], [], [⟨1, 7, 2, 4, ""⟩, ⟨2, 7, 3, 5, ""⟩], 0, 3, 0⟩ 7).2
      (by decide),
   (average_rating_spec ⟨[], [], [], [], [⟨1, 7, 2, 4, ""⟩], 0, 3, 0⟩ 9).1 (by decide)⟩

/-- Claim C2: with user_id, book_id and due_date all present, the rejection
checks of BorrowBook run in the order (a) same book already outstanding for
this user, (b) already 4 or more outstanding borrows, (c) inventory quantity
not greater than 0; the first failing check answers 400 with the relational
state unchanged and nothing further executed, and in particular any user
with 4 outstanding borrows has a 5th BorrowBook rejected. -/
theorem borrow_checks_order (db : DB) (uid bid dd : Nat)
    (hu : uid ≠ 0) (hb : bid ≠ 0) (hd : dd ≠ 0) :
    (outstandingPair db uid bid ≠ [] →
      borrow_book db ⟨some uid, some bid, some dd⟩ = ⟨.alreadyBorrowed, db, []⟩) ∧
    (outstandingPair db uid bid = [] → 4 ≤ outstandingCount db uid →
      borrow_book db ⟨some uid, some bid, some dd⟩ = ⟨.limitExceeded, db, []⟩) ∧
    (outstandingPair db uid bid = [] → outstandingCount db uid < 4 →
      (inventoryQty db bid = none ∨ ∃ q, inventoryQty db bid = some q ∧ q ≤ 0) →
      borrow_book db ⟨some uid, some bid, some dd⟩ = ⟨.notAvailable, db, []⟩) ∧
    (BorrowResult.status .alreadyBorrowed = 400 ∧ BorrowResult.status .limitExceeded = 400 ∧
      BorrowResult.status .notAvailable = 400) ∧
    (outstandingCount db uid = 4 →
      BorrowResult.status (borrow_book db ⟨some uid, some bid, some dd⟩).result = 400 ∧
      (borrow_book db ⟨some uid, some bid, some dd⟩).db = db ∧
      (borrow_book db ⟨some uid, some bid, some dd⟩).syncs = []) := by
  have hval : (!truthyNat (some uid) || !truthyNat (some bid) || !truthyNat (some dd)) = false := by
    simp [truthyNat, hu, hb, hd]
  refine ⟨?_, ?_, ?_, ⟨rfl, rfl, rfl⟩, ?_⟩
  · intro hne
    simp [borrow_book, hval, truthyNat, hu, hb, hd, List.isEmpty_iff, hne]
  · intro hpair hcount
    simp [borrow_book, hval, truthyNat, hu, hb, hd, List.isEmpty_iff, hpair, hcount]
  · intro hpair hcount hinv
    rcases hinv with hnone | ⟨q, hq, hle⟩
    · simp [borrow_book, hval, truthyNat, hu, hb, hd, List.isEmpty_iff, hpair,
        Nat.not_le.mpr hcount, hnone]
    · simp [borrow_book, hval, truthyNat, hu, hb, hd, List.isEmpty_iff, hpair,
        Nat.not_le.mpr hcount, hq, hle]
  · intro h4
    have hge : 4 ≤ outstandingCount db uid := h4.ge
    by_cases hpair : outstandingPair db uid bid = []
    · have heq : borrow_book db ⟨some uid, some bid, some dd⟩ = ⟨.limitExceeded, db, []⟩ := by
        simp [borrow_book, truthyNat, hu, hb, hd, List.isEmpty_iff, hpair, hge]
      rw [heq]
      exact ⟨rfl, rfl, rfl⟩
    · have heq : borrow_book db ⟨some uid, some bid, some dd⟩ = ⟨.alreadyBorrowed, db, []⟩ := by
        simp [borrow_book, truthyNat, hu, hb, hd, List.isEmpty_iff, hpair]
      rw [heq]
      exact ⟨rfl, rfl, rfl⟩

/-- Claim C3: a BorrowBook request passing all three checks appends exactly
one borrowed row (new id, this user and book, the requested due date, no
returned_date), decrements the book's inventory quantity by exactly 1
leaving other books' rows untouched, answers 201 with the new row's id, and
triggers re-sync of the borrowed and inventory projections. -/
theorem borrow_success_spec (db : DB) (uid bid dd : Nat) (q : Int)
    (hu : uid ≠ 0) (hb : bid ≠ 0) (hd : dd ≠ 0)
    (h1 : outstandingPair db uid bid = [])
    (h2 : outstandingCount db uid < 4)
    (h3 : inventoryQty db bid = some q) (hq : 0 < q) :
    (borrow_book db ⟨some uid, some bid, some dd⟩).result = .success db.nextBorrowId ∧
    (borrow_book db ⟨some uid, some bid, some dd⟩).db.borrowed =
      db.borrowed ++ [⟨db.nextBorrowId, uid, bid, db.now, dd, none⟩] ∧
    inventoryQty (borrow_book db ⟨some uid, some bid, some dd⟩).db bid = some (q - 1) ∧
    (∀ i ∈ db.inventory, i.book_id ≠ bid →
      i ∈ (borrow_book db ⟨some uid, some bid, some dd⟩).db.inventory) ∧
    (borrow_book db ⟨some uid, some bid, some dd⟩).syncs = [.borrowed, .inventory] ∧
    BorrowResult.status (borrow_book db ⟨some uid, some bid, some dd⟩).result = 201 := by
  have hred : borrow_book db ⟨some uid, some bid, some dd⟩ =
      ⟨.success db.nextBorrowId,
       { db with
          borrowed := db.borrowed ++ [⟨db.nextBorrowId, uid, bid, db.now, dd, none⟩],
          inventory := db.inventory.map fun i =>
            if i.book_id == bid then { i with quantity := i.quantity - 1 } else i,
          nextBorrowId := db.nextBorrowId + 1 },
       [.borrowed, .inventory]⟩ := by
    simp [borrow_book, truthyNat, hu, hb, hd, List.isEmpty_iff, h1,
      Nat.not_le.mpr h2, h3, not_le.mpr hq]
  refine ⟨by rw [hred], by rw [hred], ?_, ?_, by rw [hred], by rw [hred]; rfl⟩
  · rw [hred]
    simp only [inventoryQty] at h3 ⊢
    simp only [List.find?_map]
    have hcomp :
        ((fun i : InvRow => i.book_id == bid) ∘ fun i : InvRow =>
          if i.book_id == bid then { i with quantity := i.quantity - 1 } else i) =
        fun i : InvRow => i.book_id == bid := by
      funext i
      by_cases h : i.book_id == bid <;> simp [Function.comp, h]
    rw [hcomp]
    obtain ⟨i0, hfind, hqty⟩ : ∃ i0, db.inventory.find? (fun i => i.book_id == bid) = some i0 ∧
        i0.quantity = q := by
      cases hf : db.inventory.find? (fun i => i.book_id == bid) with
      | none => simp [hf] at h3
      | some i0 => exact ⟨i0, rfl, by simpa [hf] using h3⟩
    have hbid : i0.book_id = bid := by
      have := List.find?_some hfind
      simpa using this
    simp [hfind, Option.map_some, hbid, hqty]
  · intro i hi hne
    rw [hred]
    simp only [List.mem_map]
    refine ⟨i, hi, ?_⟩
    simp [hne]

/-- Claim C4: ReturnBook answers 404 leaving the relational state unchanged
when no outstanding borrow of that book by that user exists; otherwise it
stamps that row's returned_date with the current time, keeps every other
borrowed row, increments the book's inventory quantity by exactly 1, answers
200 and triggers re-sync of the borrowed and inventory projections. -/
theorem return_book_spec (db : DB) (uid bid : Nat) (hu : uid ≠ 0) (hb : bid ≠ 0) :
    (db.borrowed.find? (isOutstandingFor uid bid) = none →
      return_book db ⟨some uid, some bid⟩ = ⟨.notFound, db, []⟩ ∧
      ReturnResult.status (return_book db ⟨some uid, some bid⟩).result = 404) ∧
    (∀ row, db.borrowed.find? (isOutstandingFor uid bid) = some row →
      (return_book db ⟨some uid, some bid⟩).result = .success ∧
      { row with returned_date := some db.now } ∈ (return_book db ⟨some uid, some bid⟩).db.borrowed ∧
      (∀ b ∈ db.borrowed, b.id ≠ row.id → b ∈ (return_book db ⟨some uid, some bid⟩).db.borrowed) ∧
      (∀ q, inventoryQty db bid = some q →
        inventoryQty (return_book db ⟨some uid, some bid⟩).db bid = some (q + 1)) ∧
      (return_book db ⟨some uid, some bid⟩).syncs = [.borrowed, .inventory] ∧
      ReturnResult.status (return_book db ⟨some uid, some bid⟩).result = 200) := by
  constructor
  · intro hnone
    constructor <;> simp [return_book, truthyNat, hu, hb, hnone, ReturnResult.status]
  · intro row hrow
    have hred : return_book db ⟨some uid, some bid⟩ =
        ⟨.success,
         { db with
            borrowed := db.borrowed.map fun b =>
              if b.id == row.id then { b with returned_date := some db.now } else b,
            inventory := db.inventory.map fun i =>
              if i.book_id == bid then { i with quantity := i.quantity + 1 } else i },
         [.borrowed, .inventory]⟩ := by
      simp [return_book, truthyNat, hu, hb, hrow]
    refine ⟨by rw [hred], ?_, ?_, ?_, by rw [hred], by rw [hred]; rfl⟩
    · rw [hred]
      simp only [List.mem_map]
      exact ⟨row, List.mem_of_find?_eq_some hrow, by simp⟩
    · intro b hbmem hbne
      rw [hred]
      simp only [List.mem_map]
      refine ⟨b, hbmem, ?_⟩
      simp [hbne]
    · intro q hq
      rw [hred]
      simp only [inventoryQty] at hq ⊢
      simp only [List.find?_map]
      have hcomp :
          ((fun i : InvRow => i.book_id == bid) ∘ fun i : InvRow =>
            if i.book_id == bid then { i with quantity := i.quantity + 1 } else i) =
          fun i : InvRow => i.book_id == bid := by
        funext i
        by_cases h : i.book_id == bid <;> simp [Function.comp, h]
      rw [hcomp]
      obtain ⟨i0, hfind, hqty⟩ : ∃ i0, db.inventory.find? (fun i => i.book_id == bid) = some i0 ∧
          i0.quantity = q := by
        cases hf : db.inventory.find? (fun i => i.book_id == bid) with
        | none => simp [hf] at hq
        | some i0 => exact ⟨i0, rfl, by simpa [hf] using hq⟩
      have hbid : i0.book_id = bid := by
        have := List.find?_some hfind
        simpa using this
      simp [hfind, Option.map_some, hbid, hqty]

/-- Witness for C2: user 1 already holds book 2 outstanding, so a repeat
borrow answers already-borrowed; with 4 outstanding borrows of other books a
5th request answers limit-exceeded with a 400 status and no state change;
with book 2 at quantity 0 the request answers not-available. -/
theorem borrow_checks_order_witness :
    borrow_book ⟨[], [], [], [⟨1, 1, 2, 0, 9, none⟩], [], 5, 0, 3⟩ ⟨some 1, some 2, some 9⟩ =
      ⟨.alreadyBorrowed, ⟨[], [], [], [⟨1, 1, 2, 0, 9, none⟩], [], 5, 0, 3⟩, []⟩ ∧
    borrow_book
        ⟨[], [], [],
         [⟨1, 1, 10, 0, 9, none⟩, ⟨2, 1, 11, 0, 9, none⟩, ⟨3, 1, 12, 0, 9, none⟩,
          ⟨4, 1, 13, 0, 9, none⟩], [], 5, 0, 3⟩ ⟨some 1, some 2, some 9⟩ =
      ⟨.limitExceeded,
       ⟨[], [], [],
        [⟨1, 1, 10, 0, 9, none⟩, ⟨2, 1, 11, 0, 9, none⟩, ⟨3, 1, 12, 0, 9, none⟩,
         ⟨4, 1, 13, 0, 9, none⟩], [], 5, 0, 3⟩, []⟩ ∧
    borrow_book ⟨[], [], [⟨1, 2, 0⟩], [], [], 5, 0, 3⟩ ⟨some 1, some 2, some 9⟩ =
      ⟨.notAvailable, ⟨[], [], [⟨1, 2, 0⟩], [], [], 5, 0, 3⟩, []⟩ ∧
    BorrowResult.status
        (borrow_book
          ⟨[], [], [],
           [⟨1, 1, 10, 0, 9, none⟩, ⟨2, 1, 11, 0, 9, none⟩, ⟨3, 1, 12, 0, 9, none⟩,
            ⟨4, 1, 13, 0, 9, none⟩], [], 5, 0, 3⟩ ⟨some 1, some 2, some 9⟩).result = 400 :=
  ⟨(borrow_checks_order ⟨[], [], [], [⟨1, 1, 2, 0, 9, none⟩], [], 5, 0, 3⟩ 1 2 9
      (by decide) (by decide) (by decide)).1 (by decide),
   (borrow_checks_order
      ⟨[], [], [],
       [⟨1, 1, 10, 0, 9, none⟩, ⟨2, 1, 11, 0, 9, none⟩, ⟨3, 1, 12, 0, 9, none⟩,
        ⟨4, 1, 13, 0, 9, none⟩], [], 5, 0, 3⟩ 1 2 9
      (by decide) (by decide) (by decide)).2.1 (by decide) (by decide),
   (borrow_checks_order ⟨[], [], [⟨1, 2, 0⟩], [], [], 5, 0, 3⟩ 1 2 9
      (by decide) (by decide) (by decide)).2.2.1 (by decide) (by decide)
      (Or.inr ⟨0, by decide, by decide⟩),
   ((borrow_checks_order
      ⟨[], [], [],
       [⟨1, 1, 10, 0, 9, none⟩, ⟨2, 1, 11, 0, 9, none⟩, ⟨3, 1, 12, 0, 9, none⟩,
        ⟨4, 1, 13, 0, 9, none⟩], [], 5, 0, 3⟩ 1 2 9
      (by decide) (by decide) (by decide)).2.2.2.2 (by decide)).1⟩

/-- Witness for C3: book 2 at quantity 3, no outstanding borrows; a borrow
by user 1 succeeds with the fresh row id 7 and leaves quantity 2. -/
theorem borrow_success_spec_witness :
    (borrow_book ⟨[], [], [⟨1, 2, 3⟩], [], [], 7, 0, 4⟩ ⟨some 1, some 2, some 9⟩).result =
      .success 7 ∧
    (borrow_book ⟨[], [], [⟨1, 2, 3⟩], [], [], 7, 0, 4⟩ ⟨some 1, some 2, some 9⟩).db.borrowed =
      [⟨7, 1, 2, 4, 9, none⟩] ∧
    inventoryQty (borrow_book ⟨[], [], [⟨1, 2, 3⟩], [], [], 7, 0, 4⟩ ⟨some 1, some 2, some 9⟩).db 2 =
      some 2 ∧
    (borrow_book ⟨[], [], [⟨1, 2, 3⟩], [], [], 7, 0, 4⟩ ⟨some 1, some 2, some 9⟩).syncs =
      [.borrowed, .inventory] := by
  have h := borrow_success_spec ⟨[], [], [⟨1, 2, 3⟩], [], [], 7, 0, 4⟩ 1 2 9 3
    (by decide) (by decide) (by decide) (by decide) (by decide) (by decide) (by decide)
  refine ⟨h.1, by simpa using h.2.1, by simpa using h.2.2.1, h.2.2.2.2.1⟩

/-- Witness for C4: with no outstanding borrow the return answers 404
unchanged; with user 1 holding book 2 it stamps the row and moves quantity
0 to 1. -/
theorem return_book_spec_witness :
    return_book ⟨[], [], [⟨1, 2, 0⟩], [], [], 5, 0, 6⟩ ⟨some 1, some 2⟩ =
      ⟨.notFound, ⟨[], [], [⟨1, 2, 0⟩], [], [], 5, 0, 6⟩, []⟩ ∧
    (return_book ⟨[], [], [⟨1, 2, 0⟩], [⟨1, 1, 2, 0, 9, none⟩], [], 5, 0, 6⟩
        ⟨some 1, some 2⟩).result = .success ∧
    (⟨1, 1, 2, 0, 9, some 6⟩ : BorrowedRow) ∈
      (return_book ⟨[], [], [⟨1, 2, 0⟩], [⟨1, 1, 2, 0, 9, none⟩], [], 5, 0, 6⟩
        ⟨some 1, some 2⟩).db.borrowed ∧
    inventoryQty
        (return_book ⟨[], [], [⟨1, 2, 0⟩], [⟨1, 1, 2, 0, 9, none⟩], [], 5, 0, 6⟩
          ⟨some 1, some 2⟩).db 2 = some 1 := by
  have h0 := (return_book_spec ⟨[], [], [⟨1, 2, 0⟩], [], [], 5, 0, 6⟩ 1 2
    (by decide) (by decide)).1 (by decide)
  have h1 := (return_book_spec ⟨[], [], [⟨1, 2, 0⟩], [⟨1, 1, 2, 0, 9, none⟩], [], 5, 0, 6⟩ 1 2
    (by decide) (by decide)).2 ⟨1, 1, 2, 0, 9, none⟩ (by decide)
  refine ⟨h0.1, h1.1, by simpa using h1.2.1, by simpa using h1.2.2.2.1 0 (by decide)⟩

/-! ## Loop behaviour under failures -/

theorem syncLoopSkip_attempted {α : Type} (bad : α → Bool) (write : α → Graph → Graph) :
    ∀ (l : List α) (g : Graph),
      (syncLoopSkip bad write l g).attempted = l ∧ (syncLoopSkip bad write l g).completed = true := by
  intro l
  induction l with
  | nil => intro g; simp [syncLoopSkip]
  | cons r rs ih =>
    intro g
    simp only [syncLoopSkip]
    exact ⟨by simp [(ih _).1], (ih _).2⟩

theorem syncLoopAbort_stops {α : Type} (bad : α → Bool) (write : α → Graph → Graph) :
    ∀ (pre : List α) (r : α) (post : List α) (g : Graph),
      (∀ x ∈ pre, bad x = false) → bad r = true →
      (syncLoopAbort bad write (pre ++ r :: post) g).attempted = pre ++ [r] ∧
      (syncLoopAbort bad write (pre ++ r :: post) g).completed = false := by
  intro pre
  induction pre with
  | nil =>
    intro r post g _ hr
    simp [syncLoopAbort, hr]
  | cons a as ih =>
    intro r post g hpre hr
    have ha : bad a = false := hpre a (List.mem_cons_self a as)
    have hrest := ih r post (write a g) (fun x hx => hpre x (List.mem_cons_of_mem a hx)) hr
    simp only [List.cons_append, syncLoopAbort, ha, Bool.false_eq_true, if_false]
    exact ⟨by simp [hrest.1], hrest.2⟩

/-- Claim C7: inside SyncBorrowed a failing write is logged and skipped, so
every selected record is still attempted and the call runs to completion
even under failures; in SyncUsers, SyncBooks, SyncInventory and
SyncGenresAndRelationships the first failing write aborts the call, so the
records after it are never attempted. -/
theorem sync_failure_semantics :
    (∀ (bad : BorrowedRow → Bool) (rows : List BorrowedRow) (g : Graph),
      (sync_borrowed_to_neo4j bad rows g).attempted = distinctOnBorrowed rows ∧
      (sync_borrowed_to_neo4j bad rows g).completed = true) ∧
    (∀ (bad : UserRow → Bool) (pre : List UserRow) (r : UserRow) (post : List UserRow) (g : Graph),
      (∀ x ∈ pre, bad x = false) → bad r = true →
      (sync_users_to_neo4j bad (pre ++ r :: post) g).attempted = pre ++ [r] ∧
      (sync_users_to_neo4j bad (pre ++ r :: post) g).completed = false) ∧
    (∀ (bad : BookRow → Bool) (pre : List BookRow) (r : BookRow) (post : List BookRow) (g : Graph),
      (∀ x ∈ pre, bad x = false) → bad r = true →
      (sync_books_to_neo4j bad (pre ++ r :: post) g).attempted = pre ++ [r] ∧
      (sync_books_to_neo4j bad (pre ++ r :: post) g).completed = false) ∧
    (∀ (bad : InvRow → Bool) (pre : List InvRow) (r : InvRow) (post : List InvRow) (g : Graph),
      (∀ x ∈ pre, bad x = false) → bad r = true →
      (sync_inventory_to_neo4j bad (pre ++ r :: post) g).attempted = pre ++ [r] ∧
      (sync_inventory_to_neo4j bad (pre ++ r :: post) g).completed = false) ∧
    (∀ (bad : BookRow → Bool) (books : List BookRow) (pre : List BookRow) (r : BookRow)
        (post : List BookRow) (g : Graph),
      books.filter (fun b => b.genre.isSome) = pre ++ r :: post →
      (∀ x ∈ pre, bad x = false) → bad r = true →
      (sync_genres_and_relationships bad books g).attempted = pre ++ [r] ∧
      (sync_genres_and_relationships bad books g).completed = false) := by
  refine ⟨?_, ?_, ?_, ?_, ?_⟩
  · intro bad rows g
    exact syncLoopSkip_attempted bad mergeBorrowEdge (distinctOnBorrowed rows) g
  · intro bad pre r post g hpre hr
    exact syncLoopAbort_stops bad mergeUserNode pre r post g hpre hr
  · intro bad pre r post g hpre hr
    exact syncLoopAbort_stops bad mergeBookNode pre r post g hpre hr
  · intro bad pre r post g hpre hr
    exact syncLoopAbort_stops bad writeInventory pre r post g hpre hr
  · intro bad books pre r post g hfil hpre hr
    have := syncLoopAbort_stops bad writeGenre pre r post g hpre hr
    simpa [sync_genres_and_relationships, hfil] using this

/-- Witness for C7: with the driver failing on user 1's records,
SyncBorrowed still attempts both selected records, while SyncUsers,
SyncBooks, SyncInventory and SyncGenresAndRelationships given a failing
first record of two attempt only that record and abort. -/
theorem sync_failure_semantics_witness :
    (sync_borrowed_to_neo4j (fun r => r.user_id == 1)
        [⟨1, 1, 1, 0, 9, none⟩, ⟨2, 2, 1, 0, 9, none⟩] Graph.empty).attempted =
      distinctOnBorrowed [⟨1, 1, 1, 0, 9, none⟩, ⟨2, 2, 1, 0, 9, none⟩] ∧
    (sync_users_to_neo4j (fun u => u.id == 1)
        [⟨1, "a", "a@x", "member", "h"⟩, ⟨2, "b", "b@x", "member", "h"⟩] Graph.empty).attempted =
      [⟨1, "a", "a@x", "member", "h"⟩] ∧
    (sync_users_to_neo4j (fun u => u.id == 1)
        [⟨1, "a", "a@x", "member", "h"⟩, ⟨2, "b", "b@x", "member", "h"⟩] Graph.empty).completed =
      false ∧
    (sync_books_to_neo4j (fun b => b.id == 1)
        [⟨1, "t", "a", 2000, some "SF"⟩, ⟨2, "u", "a", 2001, some "SF"⟩] Graph.empty).attempted =
      [⟨1, "t", "a", 2000, some "SF"⟩] ∧
    (sync_inventory_to_neo4j (fun i => i.id == 1)
        [⟨1, 2, 3⟩, ⟨2, 3, 4⟩] Graph.empty).attempted = [⟨1, 2, 3⟩] ∧
    (sync_genres_and_relationships (fun b => b.id == 1)
        [⟨1, "t", "a", 2000, some "SF"⟩, ⟨2, "u", "a", 2001, some "SF"⟩] Graph.empty).attempted =
      [⟨1, "t", "a", 2000, some "SF"⟩] :=
  ⟨(sync_failure_semantics.1 (fun r => r.user_id == 1)
      [⟨1, 1, 1, 0, 9, none⟩, ⟨2, 2, 1, 0, 9, none⟩] Graph.empty).1,
   (sync_failure_semantics.2.1 (fun u => u.id == 1) [] ⟨1, "a", "a@x", "member", "h"⟩
      [⟨2, "b", "b@x", "member", "h"⟩] Graph.empty (by simp) (by decide)).1,
   (sync_failure_semantics.2.1 (fun u => u.id == 1) [] ⟨1, "a", "a@x", "member", "h"⟩
      [⟨2, "b", "b@x", "member", "h"⟩] Graph.empty (by simp) (by decide)).2,
   (sync_failure_semantics.2.2.1 (fun b => b.id == 1) [] ⟨1, "t", "a", 2000, some "SF"⟩
      [⟨2, "u", "a", 2001, some "SF"⟩] Graph.empty (by simp) (by decide)).1,
   (sync_failure_semantics.2.2.2.1 (fun i => i.id == 1) [] ⟨1, 2, 3⟩
      [⟨2, 3, 4⟩] Graph.empty (by simp) (by decide)).1,
   (sync_failure_semantics.2.2.2.2 (fun b => b.id == 1)
      [⟨1, "t", "a", 2000, some "SF"⟩, ⟨2, "u", "a", 2001, some "SF"⟩]
      [] ⟨1, "t", "a", 2000, some "SF"⟩ [⟨2, "u", "a", 2001, some "SF"⟩] Graph.empty
      (by decide) (by simp) (by decide)).1⟩

/-! ## SyncUsers: one node per row, idempotence -/

/-- Filtering after mapping an id-preserving update is filtering first. -/
theorem filter_map_eq {α : Type} (p : α → Bool) (f : α → α) (l : List α)
    (h1 : ∀ a, p (f a) = p a) : (l.map f).filter p = (l.filter p).map f := by
  rw [List.filter_map]
  congr 1
  exact List.filter_congr (fun a _ => (h1 a).symm) |>.symm

def mkUserNode (u : UserRow) : UserNode := ⟨u.id, u.name, u.email, u.role⟩

theorem mergeUserNode_id_pred (u : UserRow) (i : Nat) (a : UserNode) :
    ((if a.id == u.id then { a with name := u.name, email := u.email, role := u.role }
      else a).id == i) = (a.id == i) := by
  by_cases h : a.id == u.id <;> simp [h]

theorem mergeUserNode_filter_ne (u : UserRow) (g : Graph) (i : Nat) (h : u.id ≠ i) :
    (mergeUserNode u g).users.filter (fun n => n.id == i) =
      g.users.filter (fun n => n.id == i) := by
  unfold mergeUserNode
  by_cases hany : g.users.any (fun n => n.id == u.id)
  · simp only [hany, if_true]
    rw [filter_map_eq _ _ _ (mergeUserNode_id_pred u i)]
    have hfix : ∀ a ∈ g.users.filter (fun n => n.id == i),
        (if a.id == u.id then { a with name := u.name, email := u.email, role := u.role }
          else a) = a := by
      intro a ha
      have hai : a.id = i := by
        simpa using (List.mem_filter.mp ha).2
      have : (a.id == u.id) = false := by
        simp only [beq_eq_false_iff_ne, hai]
        exact Ne.symm h
      simp [this]
    rw [List.map_congr_left hfix, List.map_id']
  · simp only [hany, Bool.false_eq_true, if_false]
    simp [List.filter_append, mkUserNode, h]

theorem mergeUserNode_filter_self (u : UserRow) (g : Graph)
    (hg : ∀ i, (g.users.filter (fun n => n.id == i)).length ≤ 1) :
    (mergeUserNode u g).users.filter (fun n => n.id == u.id) = [mkUserNode u] := by
  unfold mergeUserNode
  cases hany : g.users.any (fun n => n.id == u.id) with
  | false =>
    have hnil : g.users.filter (fun n => n.id == u.id) = [] :=
      List.filter_eq_nil_iff.mpr (List.any_eq_false.mp hany)
    simp [List.filter_append, hnil, mkUserNode]
  | true =>
    simp only [if_true]
    rw [filter_map_eq _ _ _ (mergeUserNode_id_pred u u.id)]
    obtain ⟨n, hn⟩ : ∃ n, g.users.filter (fun n => n.id == u.id) = [n] := by
      obtain ⟨x, hx, hpx⟩ := List.any_eq_true.mp hany
      have hxf : x ∈ g.users.filter (fun n => n.id == u.id) := List.mem_filter.mpr ⟨hx, hpx⟩
      have hlen := hg u.id
      cases hf : g.users.filter (fun n => n.id == u.id) with
      | nil => rw [hf] at hxf; cases hxf
      | cons a t =>
        rw [hf] at hlen
        simp only [List.length_cons] at hlen
        have : t = [] := List.eq_nil_of_length_eq_zero (by omega)
        exact ⟨a, by rw [this]⟩
    rw [hn]
    have hnid : n.id = u.id := by
      have := (List.mem_filter.mp (hn ▸ List.mem_singleton_self n)).2
      simpa using this
    simp [mkUserNode, hnid]

theorem mergeUserNode_le_one (u : UserRow) (g : Graph)
    (hg : ∀ i, (g.users.filter (fun n => n.id == i)).length ≤ 1) :
    ∀ i, ((mergeUserNode u g).users.filter (fun n => n.id == i)).length ≤ 1 := by
  intro i
  unfold mergeUserNode
  cases hany : g.users.any (fun n => n.id == u.id) with
  | true =>
    simp only [if_true]
    rw [filter_map_eq _ _ _ (mergeUserNode_id_pred u i), List.length_map]
    exact hg i
  | false =>
    have hnil : g.users.filter (fun n => n.id == u.id) = [] :=
      List.filter_eq_nil_iff.mpr (List.any_eq_false.mp hany)
    simp only [Bool.false_eq_true, if_false, List.filter_append]
    by_cases hi : u.id = i
    · subst hi
      rw [hnil]
      simp [mkUserNode]
    · have hmk : List.filter (fun n => n.id == i)
          [(⟨u.id, u.name, u.email, u.role⟩ : UserNode)] = [] := by
        simp [hi]
      rw [hmk, List.append_nil]
      exact hg i

/-- A graph whose node for `u.id` already carries exactly `u`'s properties is
a fixed point of the merge. -/
theorem mergeUserNode_fix (u : UserRow) (g : Graph)
    (h : g.users.filter (fun n => n.id == u.id) = [mkUserNode u]) :
    mergeUserNode u g = g := by
  have hany : g.users.any (fun n => n.id == u.id) = true := by
    refine List.any_eq_true.mpr ⟨mkUserNode u, ?_, ?_⟩
    · exact (List.mem_filter.mp (h ▸ List.mem_singleton_self _)).1
    · simp [mkUserNode]
  unfold mergeUserNode
  rw [hany, if_pos rfl]
  have : (g.users.map fun n =>
      if n.id == u.id then { n with name := u.name, email := u.email, role := u.role }
      else n) = g.users := by
    have := List.map_congr_left (l := g.users)
      (f := fun n : UserNode =>
        if n.id == u.id then { n with name := u.name, email := u.email, role := u.role } else n)
      (g := id)
    rw [this, List.map_id]
    intro a ha
    by_cases hp : (a.id == u.id) = true
    · have : a ∈ g.users.filter (fun n => n.id == u.id) := List.mem_filter.mpr ⟨ha, hp⟩
      rw [h, List.mem_singleton] at this
      subst this
      simp [mkUserNode]
    · simp [hp]
  rw [this]

theorem foldUsers_other (rows : List UserRow) :
    ∀ (g : Graph) (i : Nat), (∀ u ∈ rows, u.id ≠ i) →
    (rows.foldl (fun h r => mergeUserNode r h) g).users.filter (fun n => n.id == i) =
      g.users.filter (fun n => n.id == i) := by
  induction rows with
  | nil => intro g i _; rfl
  | cons r t ih =>
    intro g i hne
    simp only [List.foldl_cons]
    rw [ih (mergeUserNode r g) i (fun u hu => hne u (List.mem_cons_of_mem r hu))]
    exact mergeUserNode_filter_ne r g i (hne r (List.mem_cons_self r t))

theorem foldUsers_le_one (rows : List UserRow) :
    ∀ (g : Graph), (∀ i, (g.users.filter (fun n => n.id == i)).length ≤ 1) →
    ∀ i, ((rows.foldl (fun h r => mergeUserNode r h) g).users.filter
      (fun n => n.id == i)).length ≤ 1 := by
  induction rows with
  | nil => intro g hg; exact hg
  | cons r t ih =>
    intro g hg
    exact ih (mergeUserNode r g) (mergeUserNode_le_one r g hg)

theorem foldUsers_spec (rows : List UserRow) :
    ∀ (g : Graph), (∀ i, (g.users.filter (fun n => n.id == i)).length ≤ 1) →
    (rows.map (·.id)).Nodup →
    ∀ u ∈ rows, (rows.foldl (fun h r => mergeUserNode r h) g).users.filter
      (fun n => n.id == u.id) = [mkUserNode u] := by
  induction rows with
  | nil => intro g _ _ u hu; cases hu
  | cons r t ih =>
    intro g hg hnd u hu
    have hnd' : (t.map (·.id)).Nodup := (List.nodup_cons.mp hnd).2
    have hrid : r.id ∉ t.map (·.id) := (List.nodup_cons.mp hnd).1
    simp only [List.foldl_cons]
    rcases List.mem_cons.mp hu with heq | hmem
    · subst heq
      rw [foldUsers_other t (mergeUserNode u g) u.id ?hne]
      · exact mergeUserNode_filter_self u g hg
      case hne =>
        intro v hv hvid
        exact hrid (hvid ▸ List.mem_map_of_mem (·.id) hv)
    · exact ih (mergeUserNode r g) (mergeUserNode_le_one r g hg) hnd' u hmem

theorem foldUsers_fix (rows : List UserRow) :
    ∀ (g : Graph),
    (∀ u ∈ rows, g.users.filter (fun n => n.id == u.id) = [mkUserNode u]) →
    rows.foldl (fun h r => mergeUserNode r h) g = g := by
  induction rows with
  | nil => intro g _; rfl
  | cons r t ih =>
    intro g hfix
    simp only [List.foldl_cons]
    rw [mergeUserNode_fix r g (hfix r (List.mem_cons_self r t))]
    exact ih g (fun u hu => hfix u (List.mem_cons_of_mem r hu))

theorem syncLoopAbort_nofail {α : Type} (write : α → Graph → Graph) :
    ∀ (l : List α) (g : Graph),
      syncLoopAbort (fun _ => false) write l g =
        ⟨l.foldl (fun h r => write r h) g, l, true⟩ := by
  intro l
  induction l with
  | nil => intro g; rfl
  | cons r t ih =>
    intro g
    simp only [syncLoopAbort, Bool.false_eq_true, if_false, List.foldl_cons, ih]

theorem nodup_ids_le_one (l : List UserNode) (h : (l.map (·.id)).Nodup) :
    ∀ i, (l.filter (fun n => n.id == i)).length ≤ 1 := by
  induction l with
  | nil => intro i; simp
  | cons a t ih =>
    intro i
    have h' := List.nodup_cons.mp h
    by_cases hp : (a.id == i) = true
    · have hai : a.id = i := by simpa using hp
      have hnil : t.filter (fun n => n.id == i) = [] := by
        refine List.filter_eq_nil_iff.mpr (fun n hn hni => ?_)
        have hni' : n.id = i := by simpa using hni
        apply h'.1
        have hmem : n.id ∈ t.map (·.id) := List.mem_map_of_mem (·.id) hn
        rw [hni', ← hai] at hmem
        exact hmem
      simp [List.filter_cons, hp, hnil]
    · simp only [List.filter_cons, hp, Bool.false_eq_true, if_false]
      exact ih h'.2 i

/-- Claim C8: after SyncUsers every relational user row has exactly one
graph User node keyed by its id carrying the row's name, email and role,
and a second SyncUsers run on the same table leaves the graph unchanged. -/
theorem sync_users_spec (users : List UserRow) (g : Graph)
    (hrows : (users.map (·.id)).Nodup)
    (hg : (g.users.map (·.id)).Nodup) :
    (∀ u ∈ users,
      (sync_users_to_neo4j (fun _ => false) users g).graph.users.filter
        (fun n => n.id == u.id) = [⟨u.id, u.name, u.email, u.role⟩]) ∧
    (sync_users_to_neo4j (fun _ => false) users
        (sync_users_to_neo4j (fun _ => false) users g).graph).graph =
      (sync_users_to_neo4j (fun _ => false) users g).graph := by
  have hle := nodup_ids_le_one g.users hg
  constructor
  · intro u hu
    simp only [sync_users_to_neo4j, syncLoopAbort_nofail]
    exact foldUsers_spec users g hle hrows u hu
  · simp only [sync_users_to_neo4j, syncLoopAbort_nofail]
    exact foldUsers_fix users _ (fun u hu => foldUsers_spec users g hle hrows u hu)

/-- Witness for C8 on a two-row table synced into an empty graph. -/
theorem sync_users_spec_witness :
    (∀ u ∈ ([⟨1, "a", "a@x", "member", "h"⟩, ⟨2, "b", "b@x", "admin", "h"⟩] : List UserRow),
      (sync_users_to_neo4j (fun _ => false)
        [⟨1, "a", "a@x", "member", "h"⟩, ⟨2, "b", "b@x", "admin", "h"⟩]
        Graph.empty).graph.users.filter (fun n => n.id == u.id) =
          [⟨u.id, u.name, u.email, u.role⟩]) ∧
    (sync_users_to_neo4j (fun _ => false)
        [⟨1, "a", "a@x", "member", "h"⟩, ⟨2, "b", "b@x", "admin", "h"⟩]
        (sync_users_to_neo4j (fun _ => false)
          [⟨1, "a", "a@x", "member", "h"⟩, ⟨2, "b", "b@x", "admin", "h"⟩]
          Graph.empty).graph).graph =
      (sync_users_to_neo4j (fun _ => false)
        [⟨1, "a", "a@x", "member", "h"⟩, ⟨2, "b", "b@x", "admin", "h"⟩]
        Graph.empty).graph :=
  sync_users_spec [⟨1, "a", "a@x", "member", "h"⟩, ⟨2, "b", "b@x", "admin", "h"⟩]
    Graph.empty (by decide) (by decide)

/-! ## SIMILAR_TO relationships -/

theorem mem_foldl_addPair (l : List (Nat × Nat)) :
    ∀ (es : List (Nat × Nat)) (q : Nat × Nat),
      (q ∈ l.foldl (fun es p => if p ∈ es then es else es ++ [p]) es) ↔ q ∈ es ∨ q ∈ l := by
  induction l with
  | nil => intro es q; simp
  | cons p t ih =>
    intro es q
    simp only [List.foldl_cons]
    rw [ih]
    by_cases hp : p ∈ es
    · simp only [hp, if_true, List.mem_cons]
      constructor
      · rintro (h | h)
        · exact Or.inl h
        · exact Or.inr (Or.inr h)
      · rintro (h | h | h)
        · exact Or.inl h
        · exact Or.inl (h ▸ hp)
        · exact Or.inr h
    · simp only [hp, if_false, List.mem_append, List.mem_singleton, List.mem_cons]
      tauto

theorem genreMatch_iff (b1 b2 : BookNode) :
    genreMatch b1 b2 = true ↔ ∃ s, b1.genre = some s ∧ b2.genre = some s := by
  unfold genreMatch
  cases h1 : b1.genre with
  | none => simp
  | some s =>
    cases h2 : b2.genre with
    | none => simp
    | some t =>
      simp only [beq_iff_eq, Option.some.injEq]
      constructor
      · intro h
        exact ⟨s, rfl, h.symm⟩
      · rintro ⟨u, hu, hv⟩
        rw [hu, hv]

theorem mem_similarPairs (g : Graph) (q : Nat × Nat) :
    q ∈ similarPairs g ↔
      ∃ c1 ∈ g.books, ∃ c2 ∈ g.books, q = (c1.id, c2.id) ∧ c1.id ≠ c2.id ∧
        ∃ s, c1.genre = some s ∧ c2.genre = some s := by
  unfold similarPairs
  simp only [List.mem_flatMap, List.mem_map, List.mem_filter, Bool.and_eq_true, bne_iff_ne,
    genreMatch_iff]
  constructor
  · rintro ⟨c1, hc1, c2, ⟨hc2, hg, hne⟩, hq⟩
    exact ⟨c1, hc1, c2, hc2, hq.symm, hne, hg⟩
  · rintro ⟨c1, hc1, c2, hc2, hq, hne, hg⟩
    exact ⟨c1, hc1, c2, ⟨hc2, hg, hne⟩, hq.symm⟩

/-- Claim C9: CreateSimilarRelationships merges SIMILAR_TO edges in both
directions between any two distinct books with the same non-null genre, and
every edge it creates joins two distinct books sharing a non-null genre —
never different-genre books and never a book with itself. -/
theorem similar_relationships_spec (g : Graph) (b1 b2 : BookNode)
    (h1 : b1 ∈ g.books) (h2 : b2 ∈ g.books) (hne : b1.id ≠ b2.id)
    (hgen : ∃ s, b1.genre = some s ∧ b2.genre = some s) :
    (b1.id, b2.id) ∈ (create_similar_relationships g).similarTo ∧
    (b2.id, b1.id) ∈ (create_similar_relationships g).similarTo ∧
    (∀ p ∈ (create_similar_relationships g).similarTo, p ∉ g.similarTo →
      ∃ c1 ∈ g.books, ∃ c2 ∈ g.books, p = (c1.id, c2.id) ∧ c1.id ≠ c2.id ∧
        ∃ s, c1.genre = some s ∧ c2.genre = some s) := by
  obtain ⟨s, hs1, hs2⟩ := hgen
  refine ⟨?_, ?_, ?_⟩
  · rw [create_similar_relationships, mem_foldl_addPair]
    exact Or.inr ((mem_similarPairs g _).mpr ⟨b1, h1, b2, h2, rfl, hne, s, hs1, hs2⟩)
  · rw [create_similar_relationships, mem_foldl_addPair]
    exact Or.inr ((mem_similarPairs g _).mpr ⟨b2, h2, b1, h1, rfl, (Ne.symm hne), s, hs2, hs1⟩)
  · intro p hp hnotold
    rw [create_similar_relationships, mem_foldl_addPair] at hp
    rcases hp with h | h
    · exact absurd h hnotold
    · exact (mem_similarPairs g p).mp h

/-- Witness for C9: books 1 and 2 both have genre SF; syncing the empty edge
set creates both directed SIMILAR_TO edges. -/
theorem similar_relationships_spec_witness :
    ((1 : Nat), (2 : Nat)) ∈
      (create_similar_relationships
        ⟨[], [⟨1, "t", "a", 2000, some "SF"⟩, ⟨2, "u", "b", 2001, some "SF"⟩],
         [], [], [], [], [], []⟩).similarTo ∧
    ((2 : Nat), (1 : Nat)) ∈
      (create_similar_relationships
        ⟨[], [⟨1, "t", "a", 2000, some "SF"⟩, ⟨2, "u", "b", 2001, some "SF"⟩],
         [], [], [], [], [], []⟩).similarTo :=
  ⟨(similar_relationships_spec
      ⟨[], [⟨1, "t", "a", 2000, some "SF"⟩, ⟨2, "u", "b", 2001, some "SF"⟩],
       [], [], [], [], [], []⟩
      ⟨1, "t", "a", 2000, some "SF"⟩ ⟨2, "u", "b", 2001, some "SF"⟩
      (by decide) (by decide) (by decide) ⟨"SF", rfl, rfl⟩).1,
   (similar_relationships_spec
      ⟨[], [⟨1, "t", "a", 2000, some "SF"⟩, ⟨2, "u", "b", 2001, some "SF"⟩],
       [], [], [], [], [], []⟩
      ⟨1, "t", "a", 2000, some "SF"⟩ ⟨2, "u", "b", 2001, some "SF"⟩
      (by decide) (by decide) (by decide) ⟨"SF", rfl, rfl⟩).2.1⟩

/-! ## Recommendations -/

/-- Claim C5: Recommend returns at most 5 pairwise-distinct entries; every
returned entry is the projection of a Book node that shares a genre (through
BELONGS_TO and an existing Genre node) with some book the user has a
BORROWED edge to, and that the user has no BORROWED edge to. -/
theorem recommendations_spec (g : Graph) (uid : Nat) :
    (get_recommendations_endpoint g uid).length ≤ 5 ∧
    (get_recommendations_endpoint g uid).Nodup ∧
    (∀ t ∈ get_recommendations_endpoint g uid, ∃ rb ∈ g.books,
      (rb.title, rb.author, rb.year_published) = t ∧
      hasBorrowedEdge g uid rb.id = false ∧
      ∃ gn ∈ g.genres, (rb.id, gn) ∈ g.belongsTo ∧
        ∃ b ∈ g.books, hasBorrowedEdge g uid b.id = true ∧ (b.id, gn) ∈ g.belongsTo) := by
  refine ⟨List.length_take_le 5 _, (List.take_sublist 5 _).nodup (List.nodup_dedup _), ?_⟩
  intro t ht
  have ht' : t ∈ (recommendMatches g uid).map fun b => (b.title, b.author, b.year_published) :=
    List.mem_dedup.mp (List.mem_of_mem_take ht)
  obtain ⟨rb, hrb, hft⟩ := List.mem_map.mp ht'
  by_cases hu : (g.users.any fun n => n.id == uid) = true
  · simp only [recommendMatches, hu, if_true] at hrb
    simp only [List.mem_flatMap, List.mem_filter, Bool.and_eq_true, beq_iff_eq] at hrb
    obtain ⟨e, ⟨heMem, heUid⟩, b, ⟨hbMem, hbId⟩, pr, ⟨hprMem, hprBook, hprGenre⟩,
      ⟨⟨qr, ⟨hqrMem, hqrGenre⟩, hrbMem, hrbId⟩, hrbNotBorrowed⟩⟩ := hrb
    have hrbEdge : hasBorrowedEdge g uid rb.id = false := by
      have := hrbNotBorrowed
      simpa using this
    have hgn : pr.2 ∈ g.genres := by simpa using hprGenre
    have hrbBelongs : (rb.id, pr.2) ∈ g.belongsTo := by
      have hq1 : qr.1 = rb.id := by
        simpa using hrbId.symm
      have hq2 : qr.2 = pr.2 := by simpa using hqrGenre
      have : (rb.id, pr.2) = qr := by
        cases qr
        simp_all
      rw [this]
      exact hqrMem
    have hbEdge : hasBorrowedEdge g uid b.id = true := by
      refine List.any_eq_true.mpr ⟨e, heMem, ?_⟩
      simp [heUid, hbId]
    have hbBelongs : (b.id, pr.2) ∈ g.belongsTo := by
      have : (b.id, pr.2) = pr := by
        cases pr
        simp_all
      rw [this]
      exact hprMem
    exact ⟨rb, hrbMem, hft, hrbEdge, pr.2, hgn, hrbBelongs, b, hbMem, hbEdge, hbBelongs⟩
  · simp only [recommendMatches, hu, if_false] at hrb
    cases hrb

/-- Witness for C5 on the spec's scenario: user 1 borrowed book 1 (genre
SF); book 2 shares the genre and is not borrowed, so the returned entry
projects a non-borrowed book sharing a genre with a borrowed one. -/
theorem recommendations_spec_witness :
    ("B2", "b", (2001 : Nat)) ∈
      get_recommendations_endpoint
        ⟨[⟨1, "u", "e", "member"⟩],
         [⟨1, "B1", "a", 2000, some "SF"⟩, ⟨2, "B2", "b", 2001, some "SF"⟩],
         ["SF"], [], [⟨1, 1, 1, 0, 9, none⟩], [(1, "SF"), (2, "SF")], [], []⟩ 1 ∧
    ∃ rb ∈ ([⟨1, "B1", "a", 2000, some "SF"⟩, ⟨2, "B2", "b", 2001, some "SF"⟩] : List BookNode),
      (rb.title, rb.author, rb.year_published) = ("B2", "b", (2001 : Nat)) ∧
      hasBorrowedEdge
        ⟨[⟨1, "u", "e", "member"⟩],
         [⟨1, "B1", "a", 2000, some "SF"⟩, ⟨2, "B2", "b", 2001, some "SF"⟩],
         ["SF"], [], [⟨1, 1, 1, 0, 9, none⟩], [(1, "SF"), (2, "SF")], [], []⟩ 1 rb.id = false :=
  ⟨by decide,
   by
    obtain ⟨rb, hmem, hproj, hedge, _⟩ :=
      (recommendations_spec
        ⟨[⟨1, "u", "e", "member"⟩],
         [⟨1, "B1", "a", 2000, some "SF"⟩, ⟨2, "B2", "b", 2001, some "SF"⟩],
         ["SF"], [], [⟨1, 1, 1, 0, 9, none⟩], [(1, "SF"), (2, "SF")], [], []⟩ 1).2.2
        ("B2", "b", (2001 : Nat)) (by decide)
    exact ⟨rb, hmem, hproj, hedge⟩⟩

/-! ## SyncBorrowed keeps exactly the latest row per (user, book) pair -/

theorem foldl_pick_some (l : List BorrowedRow) :
    ∀ (b : BorrowedRow), ∃ m, l.foldl pickLater (some b) = some m ∧
      (m = b ∨ m ∈ l) ∧ b.borrowed_date ≤ m.borrowed_date ∧
      ∀ r ∈ l, r.borrowed_date ≤ m.borrowed_date := by
  induction l with
  | nil => intro b; exact ⟨b, rfl, Or.inl rfl, le_refl _, by simp⟩
  | cons h t ih =>
    intro b
    simp only [List.foldl_cons]
    by_cases hlt : b.borrowed_date < h.borrowed_date
    · obtain ⟨m, hfold, hmem, hble, hall⟩ := ih h
      refine ⟨m, ?_, ?_, ?_, ?_⟩
      · simpa [pickLater, hlt] using hfold
      · rcases hmem with rfl | hm
        · exact Or.inr (List.mem_cons_self _ _)
        · exact Or.inr (List.mem_cons_of_mem _ hm)
      · exact le_trans (le_of_lt hlt) hble
      · intro r hr
        rcases List.mem_cons.mp hr with rfl | hrt
        · exact hble
        · exact hall r hrt
    · obtain ⟨m, hfold, hmem, hble, hall⟩ := ih b
      refine ⟨m, ?_, ?_, hble, ?_⟩
      · simpa [pickLater, hlt] using hfold
      · rcases hmem with rfl | hm
        · exact Or.inl rfl
        · exact Or.inr (List.mem_cons_of_mem _ hm)
      · intro r hr
        rcases List.mem_cons.mp hr with rfl | hrt
        · exact le_trans (Nat.le_of_not_lt hlt) hble
        · exact hall r hrt

theorem latestForPair_spec (rows : List BorrowedRow) (p : Nat × Nat)
    (hne : rowsForPair rows p ≠ []) :
    ∃ m, latestForPair rows p = some m ∧ m ∈ rowsForPair rows p ∧
      ∀ r ∈ rowsForPair rows p, r.borrowed_date ≤ m.borrowed_date := by
  unfold latestForPair
  cases hl : rowsForPair rows p with
  | nil => exact absurd hl hne
  | cons h t =>
    simp only [List.foldl_cons, pickLater]
    obtain ⟨m, hfold, hmem, hble, hall⟩ := foldl_pick_some t h
    refine ⟨m, hfold, ?_, ?_⟩
    · rcases hmem with rfl | hm
      · exact List.mem_cons_self _ _
      · exact List.mem_cons_of_mem _ hm
    · intro r hr
      rcases List.mem_cons.mp hr with rfl | hrt
      · exact hble
      · exact hall r hrt

theorem latestForPair_key (rows : List BorrowedRow) (p : Nat × Nat) (m : BorrowedRow)
    (h : latestForPair rows p = some m) : pairOf m = p := by
  have hmem : m ∈ rowsForPair rows p := by
    unfold latestForPair at h
    cases hl : rowsForPair rows p with
    | nil => rw [hl] at h; cases h
    | cons a t =>
      rw [hl] at h
      simp only [List.foldl_cons, pickLater] at h
      obtain ⟨m', hfold, hmem, _, _⟩ := foldl_pick_some t a
      rw [hfold] at h
      cases h
      rcases hmem with rfl | hm
      · exact List.mem_cons_self _ _
      · exact List.mem_cons_of_mem _ hm
  simpa using (List.mem_filter.mp hmem).2

theorem filterMap_latest_nil (rows : List BorrowedRow) (p : Nat × Nat)
    (ks : List (Nat × Nat)) (hp : p ∉ ks) :
    (ks.filterMap (latestForPair rows)).filter (fun r => pairOf r == p) = [] := by
  refine List.filter_eq_nil_iff.mpr (fun r hr hpr => ?_)
  obtain ⟨q, hq, hlat⟩ := List.mem_filterMap.mp hr
  have : pairOf r = q := latestForPair_key rows q r hlat
  have : p ∈ ks := by
    have hpq : pairOf r = p := by simpa using hpr
    rw [← hpq, this]
    exact hq
  exact hp this

theorem filterMap_latest_filter (rows : List BorrowedRow) (p : Nat × Nat) (m : BorrowedRow)
    (hm : latestForPair rows p = some m) :
    ∀ ks : List (Nat × Nat), ks.Nodup → p ∈ ks →
      (ks.filterMap (latestForPair rows)).filter (fun r => pairOf r == p) = [m] := by
  intro ks
  induction ks with
  | nil => intro _ hp; cases hp
  | cons k t ih =>
    intro hnd hp
    have hnd' := List.nodup_cons.mp hnd
    rcases List.mem_cons.mp hp with rfl | hpt
    · rw [List.filterMap_cons, hm]
      have hkey : (pairOf m == p) = true := by
        simp [latestForPair_key rows p m hm]
      rw [List.filter_cons, if_pos hkey]
      rw [filterMap_latest_nil rows p t hnd'.1]
    · rw [List.filterMap_cons]
      have hkp : k ≠ p := fun hkp => hnd'.1 (hkp ▸ hpt)
      cases hlat : latestForPair rows k with
      | none => exact ih hnd'.2 hpt
      | some r =>
        have hkey : (pairOf r == p) = false := by
          have := latestForPair_key rows k r hlat
          simp [this, hkp]
        rw [List.filter_cons, if_neg (by simp [hkey])]
        exact ih hnd'.2 hpt

theorem mergeBorrowEdge_nodes (r : BorrowedRow) (g : Graph) :
    (mergeBorrowEdge r g).users = g.users ∧ (mergeBorrowEdge r g).books = g.books := by
  unfold mergeBorrowEdge
  split
  · split <;> exact ⟨rfl, rfl⟩
  · exact ⟨rfl, rfl⟩

theorem mergeBorrowEdge_cond_pred (r : BorrowedRow) (uid bid : Nat) (e : BorrowEdge) :
    (((if e.id == r.id && e.from_user == r.user_id && e.to_book == r.book_id then
        { e with borrowed_date := r.borrowed_date, due_date := r.due_date,
                 returned_date := r.returned_date }
      else e).from_user == uid) &&
     ((if e.id == r.id && e.from_user == r.user_id && e.to_book == r.book_id then
        { e with borrowed_date := r.borrowed_date, due_date := r.due_date,
                 returned_date := r.returned_date }
      else e).to_book == bid)) = (e.from_user == uid && e.to_book == bid) := by
  by_cases h : (e.id == r.id && e.from_user == r.user_id && e.to_book == r.book_id) = true <;>
    simp [h]

theorem mergeBorrowEdge_filter_ne (r : BorrowedRow) (g : Graph) (uid bid : Nat)
    (h : pairOf r ≠ (uid, bid)) :
    (mergeBorrowEdge r g).borrowedEdges.filter
        (fun e => e.from_user == uid && e.to_book == bid) =
      g.borrowedEdges.filter (fun e => e.from_user == uid && e.to_book == bid) := by
  unfold mergeBorrowEdge
  split
  · split
    · show (g.borrowedEdges.map _).filter _ = _
      rw [filter_map_eq _ _ _ (mergeBorrowEdge_cond_pred r uid bid)]
      have hfix : ∀ e ∈ g.borrowedEdges.filter (fun e => e.from_user == uid && e.to_book == bid),
          (if e.id == r.id && e.from_user == r.user_id && e.to_book == r.book_id then
            { e with borrowed_date := r.borrowed_date, due_date := r.due_date,
                     returned_date := r.returned_date }
          else e) = e := by
        intro e he
        have hkey := (List.mem_filter.mp he).2
        have hcond : (e.id == r.id && e.from_user == r.user_id && e.to_book == r.book_id) =
            false := by
          simp only [Bool.and_eq_true, beq_iff_eq] at hkey
          by_contra hc
          have hc' : (e.id == r.id && e.from_user == r.user_id && e.to_book == r.book_id) =
              true := by
            cases hb : (e.id == r.id && e.from_user == r.user_id && e.to_book == r.book_id)
            · exact absurd hb hc
            · rfl
          simp only [Bool.and_eq_true, beq_iff_eq] at hc'
          apply h
          simp only [pairOf, Prod.mk.injEq]
          omega
        simp [hcond]
      rw [List.map_congr_left hfix, List.map_id']
    · show (g.borrowedEdges ++ [edgeOfRow r]).filter _ = _
      rw [List.filter_append]
      have : List.filter (fun e => e.from_user == uid && e.to_book == bid) [edgeOfRow r] = [] := by
        have : ((edgeOfRow r).from_user == uid && (edgeOfRow r).to_book == bid) = false := by
          simp only [edgeOfRow, Bool.and_eq_false_iff, beq_eq_false_iff_ne]
          by_contra hc
          push_neg at hc
          apply h
          simp only [pairOf, Prod.mk.injEq]
          exact ⟨hc.1, hc.2⟩
        simp [List.filter_cons, this]
      rw [this, List.append_nil]
  · rfl

theorem mergeBorrowEdge_filter_self (m : BorrowedRow) (g : Graph) (uid bid : Nat)
    (hkey : pairOf m = (uid, bid))
    (hU : g.users.any (fun n => n.id == m.user_id) = true)
    (hB : g.books.any (fun b => b.id == m.book_id) = true)
    (hInit : g.borrowedEdges.filter (fun e => e.from_user == uid && e.to_book == bid) = []) :
    (mergeBorrowEdge m g).borrowedEdges.filter
        (fun e => e.from_user == uid && e.to_book == bid) = [edgeOfRow m] := by
  have hmu : m.user_id = uid := by
    have := congrArg Prod.fst hkey
    simpa [pairOf] using this
  have hmb : m.book_id = bid := by
    have := congrArg Prod.snd hkey
    simpa [pairOf] using this
  have hany : (g.borrowedEdges.any
      (fun e => e.id == m.id && e.from_user == m.user_id && e.to_book == m.book_id)) = false := by
    rw [List.any_eq_false]
    intro e he hc
    simp only [Bool.and_eq_true, beq_iff_eq] at hc
    have hmem : e ∈ g.borrowedEdges.filter (fun e => e.from_user == uid && e.to_book == bid) :=
      List.mem_filter.mpr ⟨he, by simp [hc.1.2, hc.2, hmu, hmb]⟩
    rw [hInit] at hmem
    cases hmem
  unfold mergeBorrowEdge
  rw [hU, hB]
  simp only [Bool.and_self, if_true, hany, Bool.false_eq_true, if_false]
  rw [List.filter_append, hInit]
  have : ((edgeOfRow m).from_user == uid && (edgeOfRow m).to_book == bid) = true := by
    simp [edgeOfRow, hmu, hmb]
  simp [List.filter_cons, this]

theorem foldMerge_nodes (recs : List BorrowedRow) :
    ∀ g : Graph,
      (recs.foldl (fun h r => mergeBorrowEdge r h) g).users = g.users ∧
      (recs.foldl (fun h r => mergeBorrowEdge r h) g).books = g.books := by
  induction recs with
  | nil => intro g; exact ⟨rfl, rfl⟩
  | cons r t ih =>
    intro g
    simp only [List.foldl_cons]
    obtain ⟨hu, hb⟩ := ih (mergeBorrowEdge r g)
    obtain ⟨hu', hb'⟩ := mergeBorrowEdge_nodes r g
    exact ⟨hu.trans hu', hb.trans hb'⟩

theorem foldMerge_other (recs : List BorrowedRow) (uid bid : Nat) :
    ∀ g : Graph, (∀ r ∈ recs, pairOf r ≠ (uid, bid)) →
      (recs.foldl (fun h r => mergeBorrowEdge r h) g).borrowedEdges.filter
          (fun e => e.from_user == uid && e.to_book == bid) =
        g.borrowedEdges.filter (fun e => e.from_user == uid && e.to_book == bid) := by
  induction recs with
  | nil => intro g _; rfl
  | cons r t ih =>
    intro g hne
    simp only [List.foldl_cons]
    rw [ih (mergeBorrowEdge r g) (fun x hx => hne x (List.mem_cons_of_mem r hx))]
    exact mergeBorrowEdge_filter_ne r g uid bid (hne r (List.mem_cons_self r t))

theorem foldMerge_main (uid bid : Nat) (m : BorrowedRow) :
    ∀ (recs : List BorrowedRow) (g : Graph),
      recs.filter (fun r => pairOf r == (uid, bid)) = [m] →
      g.borrowedEdges.filter (fun e => e.from_user == uid && e.to_book == bid) = [] →
      g.users.any (fun n => n.id == uid) = true →
      g.books.any (fun b => b.id == bid) = true →
      (recs.foldl (fun h r => mergeBorrowEdge r h) g).borrowedEdges.filter
          (fun e => e.from_user == uid && e.to_book == bid) = [edgeOfRow m] := by
  intro recs
  induction recs with
  | nil => intro g hf; cases hf
  | cons r t ih =>
    intro g hf hInit hU hB
    simp only [List.foldl_cons]
    by_cases hr : (pairOf r == (uid, bid)) = true
    · rw [List.filter_cons, if_pos hr] at hf
      simp only [List.cons.injEq] at hf
      obtain ⟨hrm, htnil⟩ := hf
      subst hrm
      have hkey : pairOf r = (uid, bid) := by simpa using hr
      have hmu : r.user_id = uid := by
        have := congrArg Prod.fst hkey
        simpa [pairOf] using this
      have hmb : r.book_id = bid := by
        have := congrArg Prod.snd hkey
        simpa [pairOf] using this
      rw [foldMerge_other t uid bid (mergeBorrowEdge r g) ?hother]
      · exact mergeBorrowEdge_filter_self r g uid bid hkey (hmu ▸ hU) (hmb ▸ hB) hInit
      case hother =>
        intro x hx hxk
        have : (pairOf x == (uid, bid)) = true := by simp [hxk]
        have hxmem : x ∈ t.filter (fun x => pairOf x == (uid, bid)) :=
          List.mem_filter.mpr ⟨hx, this⟩
        rw [htnil] at hxmem
        cases hxmem
    · rw [List.filter_cons, if_neg hr] at hf
      have hrne : pairOf r ≠ (uid, bid) := by
        intro hc
        exact hr (by simp [hc])
      refine ih (mergeBorrowEdge r g) hf ?_ ?_ ?_
      · rw [mergeBorrowEdge_filter_ne r g uid bid hrne]
        exact hInit
      · rw [(mergeBorrowEdge_nodes r g).1]
        exact hU
      · rw [(mergeBorrowEdge_nodes r g).2]
        exact hB

theorem syncLoopSkip_nofail {α : Type} (write : α → Graph → Graph) :
    ∀ (l : List α) (g : Graph),
      (syncLoopSkip (fun _ => false) write l g).graph = l.foldl (fun h r => write r h) g := by
  intro l
  induction l with
  | nil => intro g; rfl
  | cons r t ih =>
    intro g
    simp only [syncLoopSkip, Bool.false_eq_true, if_false, List.foldl_cons, ih]

/-- Claim C1: when a (user, book) pair has several historical borrowed rows
and the graph holds that user's and that book's nodes with no BORROWED edge
yet between them, SyncBorrowed leaves exactly one BORROWED edge from the
user's node to the book's node, carrying the borrowed, due and returned
dates of the pair's row with the latest borrowed_date. -/
theorem sync_borrowed_latest (rows : List BorrowedRow) (g : Graph) (uid bid : Nat)
    (m : BorrowedRow)
    (hU : g.users.any (fun n => n.id == uid) = true)
    (hB : g.books.any (fun b => b.id == bid) = true)
    (hInit : g.borrowedEdges.filter (fun e => e.from_user == uid && e.to_book == bid) = [])
    (hMulti : 1 < (rowsForPair rows (uid, bid)).length)
    (hm : m ∈ rowsForPair rows (uid, bid))
    (hLatest : ∀ r ∈ rowsForPair rows (uid, bid), r ≠ m → r.borrowed_date < m.borrowed_date) :
    (sync_borrowed_to_neo4j (fun _ => false) rows g).graph.borrowedEdges.filter
        (fun e => e.from_user == uid && e.to_book == bid) =
      [⟨m.id, uid, bid, m.borrowed_date, m.due_date, m.returned_date⟩] := by
  have hne : rowsForPair rows (uid, bid) ≠ [] := by
    intro hc
    rw [hc] at hMulti
    simp at hMulti
  obtain ⟨m', hlat, hm', hmax⟩ := latestForPair_spec rows (uid, bid) hne
  have hmm : m' = m := by
    by_contra hne'
    have h1 := hLatest m' hm' hne'
    have h2 := hmax m hm
    omega
  subst hmm
  have hkeym : pairOf m' = (uid, bid) := by
    simpa using (List.mem_filter.mp hm').2
  have hpk : (uid, bid) ∈ (rows.map pairOf).dedup := by
    rw [List.mem_dedup]
    have hmr : m' ∈ rows := by
      have := List.mem_filter.mp hm'
      exact this.1
    exact hkeym ▸ List.mem_map_of_mem pairOf hmr
  have hfil : (distinctOnBorrowed rows).filter (fun r => pairOf r == (uid, bid)) = [m'] :=
    filterMap_latest_filter rows (uid, bid) m' hlat _ (List.nodup_dedup _) hpk
  have hmu : m'.user_id = uid := by
    have := congrArg Prod.fst hkeym
    simpa [pairOf] using this
  have hmb : m'.book_id = bid := by
    have := congrArg Prod.snd hkeym
    simpa [pairOf] using this
  rw [sync_borrowed_to_neo4j, syncLoopSkip_nofail]
  rw [foldMerge_main uid bid m' (distinctOnBorrowed rows) g hfil hInit hU hB]
  simp [edgeOfRow, hmu, hmb]

/-- Witness for C1: user 1 borrowed book 2 twice (rows with borrowed_date 5
returned, and 10 outstanding); syncing into a graph holding both nodes and
no BORROWED edges yields the single edge of the latest row. -/
theorem sync_borrowed_latest_witness :
    (sync_borrowed_to_neo4j (fun _ => false)
        [⟨1, 1, 2, 5, 9, some 6⟩, ⟨2, 1, 2, 10, 20, none⟩]
        ⟨[⟨1, "u", "e", "member"⟩], [⟨2, "B", "a", 2000, none⟩],
         [], [], [], [], [], []⟩).graph.borrowedEdges.filter
        (fun e => e.from_user == 1 && e.to_book == 2) =
      [⟨2, 1, 2, 10, 20, none⟩] := by
  have h := sync_borrowed_latest
    [⟨1, 1, 2, 5, 9, some 6⟩, ⟨2, 1, 2, 10, 20, none⟩]
    ⟨[⟨1, "u", "e", "member"⟩], [⟨2, "B", "a", 2000, none⟩], [], [], [], [], [], []⟩
    1 2 ⟨2, 1, 2, 10, 20, none⟩
    (by decide) (by decide) (by decide) (by decide) (by decide) (by decide)
  simpa using h
